import Mathlib

/-!
Verification of the AirCommand gesture-activation state machine and the
volume-gesture detectors, as a shallow embedding of the Python sources
(`gestures/base_gesture.py`, `gestures/volume_up_gesture.py`,
`gestures/volume_down_gesture.py`, `app.py`).

Timestamps are modelled as rationals; every call the Python code makes to
the ambient clock `time.time()` becomes an explicit `now` argument.
List indexing that can raise `IndexError` in Python is modelled in the
`Option` monad: `none` is a raised exception.
-/

/-- The mutable per-gesture state held by `BaseGesture.__init__`:
`cooldown` and `activation_delay` are the per-kind constants, the other
four fields are the activation state. -/
structure GestureState where
  cooldown : ℚ
  activation_delay : ℚ
  last_execution_time : ℚ
  is_active : Bool
  activation_time : ℚ
  has_activated : Bool
deriving DecidableEq, Repr

/-- Embedding of `BaseGesture.__init__(name, cooldown, activation_delay)`:
`last_execution_time = 0`, `is_active = False`, `activation_time = 0`,
`has_activated = False`. -/
def initGesture (cooldown activation_delay : ℚ) : GestureState :=
  { cooldown := cooldown
    activation_delay := activation_delay
    last_execution_time := 0
    is_active := false
    activation_time := 0
    has_activated := false }

/-- Embedding of `BaseGesture.can_execute`: `time.time() - self.last_execution_time >= self.cooldown`. -/
def can_execute (now : ℚ) (s : GestureState) : Bool :=
  decide (now - s.last_execution_time ≥ s.cooldown)

/-- Embedding of `BaseGesture.mark_executed`: `self.last_execution_time = time.time()`. -/
def mark_executed (now : ℚ) (s : GestureState) : GestureState :=
  { s with last_execution_time := now }

/-- Embedding of `BaseGesture.start_gesture`: if not already active, set `is_active`,
record `activation_time`, clear `has_activated`; otherwise do nothing. -/
def start_gesture (now : ℚ) (s : GestureState) : GestureState :=
  if s.is_active then s
  else { s with is_active := true, activation_time := now, has_activated := false }

/-- Embedding of `BaseGesture.end_gesture`: unconditionally clear `is_active`,
`activation_time` and `has_activated` (but not `last_execution_time`). -/
def end_gesture (s : GestureState) : GestureState :=
  { s with is_active := false, activation_time := 0, has_activated := false }

/-- Embedding of `BaseGesture.get_gesture_duration`: `time.time() - self.activation_time`
if active, else `0`. Note: no clamping of negative values. -/
def get_gesture_duration (now : ℚ) (s : GestureState) : ℚ :=
  if s.is_active then now - s.activation_time else 0

/-- Embedding of `BaseGesture.is_ready_to_execute`: false when inactive; before the first
activation compare the gesture duration with `activation_delay`; afterwards
defer to `can_execute` (the cooldown check). -/
def is_ready_to_execute (now : ℚ) (s : GestureState) : Bool :=
  if s.is_active = false then
    false
  else if s.has_activated = false then
    decide (get_gesture_duration now s ≥ s.activation_delay)
  else
    can_execute now s

/-- The success path of `AirCommandController._process_gestures` combined with
`mark_executed` inside a successful `execute`: the code records
`last_execution_time = now` (in `mark_executed`) and then the caller sets
`has_activated = True` after `execute` returned `True`. -/
def record_success (now : ℚ) (s : GestureState) : GestureState :=
  { mark_executed now s with has_activated := true }

/-- Embedding of `VolumeUpGesture.execute` / `VolumeDownGesture.execute`, with the external
effects made explicit: `currentVolume` is the result of `_get_current_volume`
(`none` when the volume cannot be read), `setOk` is whether `_set_volume`
succeeds (an exception there is caught and turns into `False`). Returns the
boolean result paired with the updated state; `mark_executed` runs only on
the all-success path, just before returning `True`. -/
def executeStep (now : ℚ) (currentVolume : Option ℤ) (setOk : Bool)
    (s : GestureState) : Bool × GestureState :=
  if is_ready_to_execute now s = false then (false, s)
  else
    match currentVolume with
    | none => (false, s)
    | some _ => if setOk then (true, mark_executed now s) else (false, s)

/-- The per-frame body of `_process_gestures` for the current gesture:
call `execute`; on success, set `has_activated = True`. -/
def process_current (now : ℚ) (currentVolume : Option ℤ) (setOk : Bool)
    (s : GestureState) : GestureState :=
  let r := executeStep now currentVolume setOk s
  if r.1 then { r.2 with has_activated := true } else r.2

/-- A `begin`/`end` call on one gesture's state (`start_gesture`/`end_gesture`). -/
inductive BEEvent where
  | begin (t : ℚ)
  | stop
deriving DecidableEq, Repr

/-- Apply one `begin`/`end` call. -/
def applyBE (e : BEEvent) (s : GestureState) : GestureState :=
  match e with
  | .begin t => start_gesture t s
  | .stop => end_gesture s

/-- Run a sequence of `begin`/`end` calls left to right. -/
def runBE (es : List BEEvent) (s : GestureState) : GestureState :=
  es.foldl (fun s e => applyBE e s) s

/-- Whether a `begin`/`end` call is a `begin`. -/
def isBeginEvent (e : BEEvent) : Bool :=
  match e with
  | .begin _ => true
  | .stop => false

/-- Everything the driving loop in `_process_gestures` can do to one
gesture's state: start it, end it, or run a frame on it as the current
gesture (with the given external-action outcomes). -/
inductive DriveEvent where
  | begin (t : ℚ)
  | stop
  | frame (t : ℚ) (currentVolume : Option ℤ) (setOk : Bool)
deriving DecidableEq, Repr

/-- Apply one driving-loop event. -/
def applyDrive (e : DriveEvent) (s : GestureState) : GestureState :=
  match e with
  | .begin t => start_gesture t s
  | .stop => end_gesture s
  | .frame t cv ok => process_current t cv ok s

/-- Run a sequence of driving-loop events left to right. -/
def runDrive (es : List DriveEvent) (s : GestureState) : GestureState :=
  es.foldl (fun s e => applyDrive e s) s

/-- A MediaPipe hand landmark, reduced to the coordinates the detectors read. -/
structure Landmark where
  x : ℚ
  y : ℚ
deriving DecidableEq, Repr

/-- Embedding of `BaseGesture.get_finger_states`: `[0,0,0,0,0]` when the list is empty or
shorter than 21; otherwise index the tip/pip/mcp landmarks and threshold the
`y` coordinates. Indexing is in the `Option` monad (a `none` is a Python
`IndexError`), though under the length guard every access is in bounds. -/
def get_finger_states (landmarks : List Landmark) : Option (List ℤ) :=
  if landmarks = [] ∨ landmarks.length < 21 then some [0, 0, 0, 0, 0]
  else do
    let thumb_tip ← landmarks[4]?
    let thumb_ip ← landmarks[3]?
    let _thumb_mcp ← landmarks[2]?
    let index_tip ← landmarks[8]?
    let index_pip ← landmarks[6]?
    let _index_mcp ← landmarks[5]?
    let middle_tip ← landmarks[12]?
    let middle_pip ← landmarks[10]?
    let _middle_mcp ← landmarks[9]?
    let ring_tip ← landmarks[16]?
    let ring_pip ← landmarks[14]?
    let _ring_mcp ← landmarks[13]?
    let pinky_tip ← landmarks[20]?
    let pinky_pip ← landmarks[18]?
    let _pinky_mcp ← landmarks[17]?
    let thumb : ℤ := if thumb_tip.y < thumb_ip.y - 2/100 then 1 else 0
    let index : ℤ := if index_tip.y < index_pip.y - 1/100 then 1 else 0
    let middle : ℤ := if middle_tip.y < middle_pip.y - 1/100 then 1 else 0
    let ring : ℤ := if ring_tip.y < ring_pip.y - 1/100 then 1 else 0
    let pinky : ℤ := if pinky_tip.y < pinky_pip.y - 1/100 then 1 else 0
    some [thumb, index, middle, ring, pinky]

/-- Embedding of `VolumeUpGesture.detect`: thumbs up is finger states `[1,0,0,0,0]` plus
the thumb tip strictly above the IP joint by more than `0.01`. -/
def volumeUpDetect (landmarks : List Landmark) : Option Bool :=
  if landmarks = [] then some false
  else do
    let fs ← get_finger_states landmarks
    if fs = [1, 0, 0, 0, 0] then do
      let thumb_tip ← landmarks[4]?
      let thumb_ip ← landmarks[3]?
      if thumb_tip.y < thumb_ip.y - (1/100 : ℚ) then some true else some false
    else some false

/-- Embedding of `VolumeDownGesture.detect`: thumbs down is finger states `[0,0,0,0,0]`
plus the thumb tip strictly below the IP joint by more than `0.01`. -/
def volumeDownDetect (landmarks : List Landmark) : Option Bool :=
  if landmarks = [] then some false
  else do
    let fs ← get_finger_states landmarks
    if fs = [0, 0, 0, 0, 0] then do
      let thumb_tip ← landmarks[4]?
      let thumb_ip ← landmarks[3]?
      if thumb_tip.y > thumb_ip.y + (1/100 : ℚ) then some true else some false
    else some false


/-- Lemma: `start_gesture` always leaves the state active. -/
theorem aux_start_active (t : ℚ) (s : GestureState) :
    (start_gesture t s).is_active = true := by
  unfold start_gesture
  split <;> simp_all

/-- A ready state is active. -/
theorem aux_is_ready_active (now : ℚ) (s : GestureState) :
    is_ready_to_execute now s = true → s.is_active = true := by
  unfold is_ready_to_execute
  by_cases h : s.is_active = false
  · simp [h]
  · intro _
    simpa using h

/-- Readiness is monotone in the clock for a fixed state. -/
theorem aux_is_ready_mono (s : GestureState) (now t : ℚ) (hle : now ≤ t)
    (hr : is_ready_to_execute now s = true) : is_ready_to_execute t s = true := by
  have ha : s.is_active = true := aux_is_ready_active now s hr
  by_cases hb : s.has_activated = false
  · simp [is_ready_to_execute, ha, hb, get_gesture_duration] at hr ⊢
    linarith
  · simp [is_ready_to_execute, ha, hb, can_execute] at hr ⊢
    linarith

/-- Claim C1: `is_ready_to_execute` returns false when the gesture is
inactive; when active and not yet fired it is true exactly when
`now - activation_time ≥ activation_delay`; when active and already fired it
is true exactly when `now - last_execution_time ≥ cooldown`. After
`start_gesture t0` on the initial state and before any firing, it is false
for every `t < t0 + delay` and true at `t = t0 + delay`. -/
theorem c1_is_ready_characterization (s : GestureState) (now t0 t cd d : ℚ) :
    (s.is_active = false → is_ready_to_execute now s = false)
    ∧ (s.is_active = true → s.has_activated = false →
        (is_ready_to_execute now s = true ↔ now - s.activation_time ≥ s.activation_delay))
    ∧ (s.is_active = true → s.has_activated = true →
        (is_ready_to_execute now s = true ↔ now - s.last_execution_time ≥ s.cooldown))
    ∧ (t0 ≤ t → t < t0 + d →
        is_ready_to_execute t (start_gesture t0 (initGesture cd d)) = false)
    ∧ is_ready_to_execute (t0 + d) (start_gesture t0 (initGesture cd d)) = true := by
  refine ⟨?_, ?_, ?_, ?_, ?_⟩
  · intro h
    simp [is_ready_to_execute, h]
  · intro h1 h2
    simp [is_ready_to_execute, h1, h2, get_gesture_duration]
  · intro h1 h2
    simp [is_ready_to_execute, h1, h2, can_execute]
  · intro _ h2
    simp only [is_ready_to_execute, start_gesture, initGesture, get_gesture_duration]
    norm_num
    linarith
  · simp only [is_ready_to_execute, start_gesture, initGesture, get_gesture_duration]
    norm_num

/-- Witness for C1 at concrete inputs. -/
theorem c1_is_ready_characterization_witness :
    is_ready_to_execute 0 (initGesture 6 2) = false
    ∧ is_ready_to_execute 1 (start_gesture 0 (initGesture 6 2)) = false
    ∧ is_ready_to_execute (0 + 2) (start_gesture 0 (initGesture 6 2)) = true := by
  refine ⟨?_, ?_, ?_⟩
  · exact (c1_is_ready_characterization (initGesture 6 2) 0 0 0 6 2).1 rfl
  · exact (c1_is_ready_characterization (initGesture 6 2) 0 0 1 6 2).2.2.2.1
      (by norm_num) (by norm_num)
  · exact (c1_is_ready_characterization (initGesture 6 2) 0 0 1 6 2).2.2.2.2

/-- Counterexample to claim C2 as stated: `mark_executed` alone does not set
`has_activated`; it stays false after a `mark_executed` on a freshly started
gesture. -/
theorem c2_mark_executed_counterexample :
    (mark_executed 1 (start_gesture 0 (initGesture 6 2))).has_activated = false := by
  rfl

/-- Claim C2 (amended): `mark_executed now` sets `last_execution_time = now`
and leaves `is_active`, `activation_time` and `has_activated` unchanged; the
flag `has_activated` is set to true separately by the caller
(`_process_gestures`) after a successful `execute`, so the combined success
path `record_success` sets both `last_execution_time = now` and
`has_activated = true` while leaving `is_active` and `activation_time`
unchanged. -/
theorem c2_mark_executed_amended (s : GestureState) (now : ℚ) :
    (mark_executed now s).last_execution_time = now
    ∧ (mark_executed now s).has_activated = s.has_activated
    ∧ (mark_executed now s).is_active = s.is_active
    ∧ (mark_executed now s).activation_time = s.activation_time
    ∧ (record_success now s).last_execution_time = now
    ∧ (record_success now s).has_activated = true
    ∧ (record_success now s).is_active = s.is_active
    ∧ (record_success now s).activation_time = s.activation_time :=
  ⟨rfl, rfl, rfl, rfl, rfl, rfl, rfl, rfl⟩

/-- Counterexample to claim C5 as stated: with the clock moved backwards past
the activation time, `get_gesture_duration` returns the negative elapsed time
instead of clamping it to `max 0 _`. -/
theorem c5_duration_counterexample :
    get_gesture_duration 4 (start_gesture 5 (initGesture 1 1)) ≠
      max 0 (4 - (start_gesture 5 (initGesture 1 1)).activation_time) := by
  with_unfolding_all decide

/-- Claim C5 (amended): while active, `get_gesture_duration t` returns
`t - activation_time` (which may be negative if the clock moved backwards;
the code does not clamp), and `0` while inactive; it is a pure query with no
effect on the state. -/
theorem c5_duration_amended (s : GestureState) (t : ℚ) :
    (s.is_active = true → get_gesture_duration t s = t - s.activation_time)
    ∧ (s.is_active = false → get_gesture_duration t s = 0) := by
  constructor <;> intro h <;> simp [get_gesture_duration, h]

/-- Witness for C5 (amended) at concrete inputs. -/
theorem c5_duration_amended_witness :
    get_gesture_duration 4 (start_gesture 5 (initGesture 1 1)) = 4 - 5
    ∧ get_gesture_duration 7 (initGesture 1 1) = 0 := by
  constructor
  · have h := (c5_duration_amended (start_gesture 5 (initGesture 1 1)) 4).1 rfl
    simpa using h
  · exact (c5_duration_amended (initGesture 1 1) 7).2 rfl

/-- Claim C7: after `end_gesture` (and before any new `start_gesture`),
`is_ready_to_execute` is false for every clock value, even though
`last_execution_time` is not reset; in particular `begin(5)` immediately
followed by `end()` gives `is_ready(5.3, 0.2, 0.6) = false`. -/
theorem c7_ready_false_after_end (s : GestureState) (t : ℚ) :
    is_ready_to_execute t (end_gesture s) = false
    ∧ (end_gesture s).last_execution_time = s.last_execution_time
    ∧ is_ready_to_execute (53/10)
        (end_gesture (start_gesture 5 (initGesture (6/10) (2/10)))) = false := by
  refine ⟨?_, rfl, ?_⟩
  · simp [is_ready_to_execute, end_gesture]
  · with_unfolding_all decide

/-- Claim C3: after `start_gesture t0` on the initial state and a successful
fire recorded at `t1 ≥ t0 + delay` (the code's success path
`record_success`, which `process_current` takes when the volume read and
write succeed), `is_ready_to_execute` is false for all `t1 ≤ t < t1 + cooldown`
and true at `t = t1 + cooldown`; concretely, `begin(0)`, `mark_fired(0.2)`
with delay `0.2` and cooldown `0.6` gives `is_ready(0.1) = false`,
`is_ready(0.2) = true`, `is_ready(0.5) = false`, `is_ready(0.8) = true`. -/
theorem c3_cooldown_after_fire (cd d t0 t1 t : ℚ) (v : ℤ)
    (hfire : t0 + d ≤ t1) :
    (t1 ≤ t → t < t1 + cd →
      is_ready_to_execute t (record_success t1 (start_gesture t0 (initGesture cd d))) = false)
    ∧ is_ready_to_execute (t1 + cd)
        (record_success t1 (start_gesture t0 (initGesture cd d))) = true
    ∧ process_current t1 (some v) true (start_gesture t0 (initGesture cd d))
        = record_success t1 (start_gesture t0 (initGesture cd d))
    ∧ is_ready_to_execute (1/10) (start_gesture 0 (initGesture (6/10) (2/10))) = false
    ∧ is_ready_to_execute (2/10) (start_gesture 0 (initGesture (6/10) (2/10))) = true
    ∧ is_ready_to_execute (5/10)
        (record_success (2/10) (start_gesture 0 (initGesture (6/10) (2/10)))) = false
    ∧ is_ready_to_execute (8/10)
        (record_success (2/10) (start_gesture 0 (initGesture (6/10) (2/10)))) = true := by
  refine ⟨?_, ?_, ?_, ?_, ?_, ?_, ?_⟩
  · intro _ h2
    simp only [is_ready_to_execute, record_success, mark_executed, start_gesture,
      initGesture, can_execute]
    norm_num
    linarith
  · simp only [is_ready_to_execute, record_success, mark_executed, start_gesture,
      initGesture, can_execute]
    norm_num
  · have hready : is_ready_to_execute t1 (start_gesture t0 (initGesture cd d)) = true := by
      simp only [is_ready_to_execute, start_gesture, initGesture, get_gesture_duration]
      norm_num
      linarith
    simp [process_current, executeStep, hready, record_success]
  · with_unfolding_all decide
  · with_unfolding_all decide
  · with_unfolding_all decide
  · with_unfolding_all decide

/-- Witness for C3 at concrete inputs. -/
theorem c3_cooldown_after_fire_witness :
    is_ready_to_execute 5 (record_success 2 (start_gesture 0 (initGesture 6 2))) = false
    ∧ is_ready_to_execute (2 + 6)
        (record_success 2 (start_gesture 0 (initGesture 6 2))) = true := by
  constructor
  · exact (c3_cooldown_after_fire 6 2 0 2 5 0 (by norm_num)).1 (by norm_num) (by norm_num)
  · exact (c3_cooldown_after_fire 6 2 0 2 5 0 (by norm_num)).2.1

/-- Claim C4: when the external action fails (`execute` returns false, for
example because the current volume cannot be read), the state is unchanged —
`executeStep` returns the state as it was and `process_current` leaves it
untouched — so a state that was ready stays ready at every later time of the
same activation episode (retry permitted on the very next frame). -/
theorem c4_failed_action_no_record (s : GestureState) (now t : ℚ)
    (cv : Option ℤ) (ok : Bool)
    (hready : is_ready_to_execute now s = true)
    (hfail : (executeStep now cv ok s).1 = false)
    (hle : now ≤ t) :
    (executeStep now cv ok s).2 = s
    ∧ process_current now cv ok s = s
    ∧ is_ready_to_execute t s = true := by
  have hstep : (executeStep now cv ok s).2 = s := by
    unfold executeStep at hfail ⊢
    simp only [hready] at hfail ⊢
    cases cv with
    | none => simp
    | some v =>
      cases ok with
      | false => simp
      | true => simp_all
  refine ⟨hstep, ?_, aux_is_ready_mono s now t hle hready⟩
  unfold process_current
  simp only [hfail, if_false, Bool.false_eq_true]
  exact hstep

/-- Witness for C4 at concrete inputs. -/
theorem c4_failed_action_no_record_witness :
    (executeStep 2 none true (start_gesture 0 (initGesture 6 2))).2
        = start_gesture 0 (initGesture 6 2)
    ∧ process_current 2 none true (start_gesture 0 (initGesture 6 2))
        = start_gesture 0 (initGesture 6 2)
    ∧ is_ready_to_execute 3 (start_gesture 0 (initGesture 6 2)) = true :=
  c4_failed_action_no_record (start_gesture 0 (initGesture 6 2)) 2 3 none true
    (by with_unfolding_all decide) (by with_unfolding_all decide) (by norm_num)

/-- Unfolding `runBE` one step. -/
theorem aux_runBE_cons (e : BEEvent) (es : List BEEvent) (s : GestureState) :
    runBE (e :: es) s = runBE es (applyBE e s) := rfl

/-- After a non-empty `begin`/`end` sequence, `is_active` equals
"the last call was a `begin`", from any starting state. -/
theorem aux_runBE_last (es : List BEEvent) (e : BEEvent) :
    es.getLast? = some e → ∀ s : GestureState,
      (runBE es s).is_active = isBeginEvent e := by
  induction es with
  | nil => intro h; simp at h
  | cons e0 es ih =>
    intro h s
    cases es with
    | nil =>
      simp at h
      subst h
      rw [aux_runBE_cons]
      show (applyBE e0 s).is_active = isBeginEvent e0
      cases e0 with
      | begin t => simp [applyBE, aux_start_active, isBeginEvent]
      | stop => simp [applyBE, end_gesture, isBeginEvent]
    | cons e1 es1 =>
      rw [aux_runBE_cons]
      exact ih (by rw [← h]; exact (List.getLast?_cons_cons ..).symm) (applyBE e0 s)

/-- Along any `begin`/`end` run, an inactive state has `activation_time = 0`
and `has_activated = false`, provided the starting state satisfies the same
conditional property. -/
theorem aux_runBE_inactive_reset (es : List BEEvent) :
    ∀ s : GestureState,
      (s.is_active = false → s.activation_time = 0 ∧ s.has_activated = false) →
      ((runBE es s).is_active = false →
        (runBE es s).activation_time = 0 ∧ (runBE es s).has_activated = false) := by
  induction es with
  | nil => exact fun s h => h
  | cons e es ih =>
    intro s h
    rw [aux_runBE_cons]
    apply ih
    cases e with
    | begin t =>
      intro hfalse
      rw [show applyBE (BEEvent.begin t) s = start_gesture t s from rfl,
        aux_start_active] at hfalse
      cases hfalse
    | stop =>
      intro _
      simp [applyBE, end_gesture]

/-- Lemma: `end_gesture` is the identity on a state whose resettable fields are
already clear. -/
theorem aux_end_noop (s : GestureState) (h1 : s.is_active = false)
    (h2 : s.activation_time = 0) (h3 : s.has_activated = false) :
    end_gesture s = s := by
  cases s
  simp_all [end_gesture]

/-- Claim C6: for every `begin`/`end` sequence from the initial state,
`is_active` afterwards is true iff the last call was a `begin`;
`start_gesture` is a no-op on an already-active state (preserving
`activation_time` and `has_activated`), and `end_gesture` is idempotent and
a no-op on an already-inactive reachable state. -/
theorem c6_begin_end_sequences (es : List BEEvent) (e : BEEvent)
    (s : GestureState) (t cd d : ℚ) :
    (es.getLast? = some e →
      (runBE es (initGesture cd d)).is_active = isBeginEvent e)
    ∧ (s.is_active = true → start_gesture t s = s)
    ∧ end_gesture (end_gesture s) = end_gesture s
    ∧ ((runBE es (initGesture cd d)).is_active = false →
        end_gesture (runBE es (initGesture cd d)) = runBE es (initGesture cd d)) := by
  refine ⟨?_, ?_, rfl, ?_⟩
  · intro h
    exact aux_runBE_last es e h (initGesture cd d)
  · intro h
    simp [start_gesture, h]
  · intro h
    obtain ⟨h2, h3⟩ :=
      aux_runBE_inactive_reset es (initGesture cd d) (fun _ => ⟨rfl, rfl⟩) h
    exact aux_end_noop _ h h2 h3

/-- Witness for C6 at concrete inputs. -/
theorem c6_begin_end_sequences_witness :
    (runBE [BEEvent.begin 1, BEEvent.stop] (initGesture 6 2)).is_active = false
    ∧ start_gesture 3 (start_gesture 0 (initGesture 6 2))
        = start_gesture 0 (initGesture 6 2)
    ∧ end_gesture (runBE [BEEvent.begin 1, BEEvent.stop] (initGesture 6 2))
        = runBE [BEEvent.begin 1, BEEvent.stop] (initGesture 6 2) := by
  refine ⟨?_, ?_, ?_⟩
  · have h := (c6_begin_end_sequences [BEEvent.begin 1, BEEvent.stop] BEEvent.stop
      (initGesture 6 2) 0 6 2).1 rfl
    simpa [isBeginEvent] using h
  · exact (c6_begin_end_sequences [] BEEvent.stop
      (start_gesture 0 (initGesture 6 2)) 3 6 2).2.1 rfl
  · exact (c6_begin_end_sequences [BEEvent.begin 1, BEEvent.stop] BEEvent.stop
      (initGesture 6 2) 0 6 2).2.2.2 rfl

/-- Unfolding `runDrive` one step. -/
theorem aux_runDrive_cons (e : DriveEvent) (es : List DriveEvent) (s : GestureState) :
    runDrive (e :: es) s = runDrive es (applyDrive e s) := rfl

/-- Lemma: `process_current` either leaves the state alone or, when the gesture was
ready and the action succeeded, records the fire via `record_success`. -/
theorem aux_process_current_cases (now : ℚ) (cv : Option ℤ) (ok : Bool)
    (s : GestureState) :
    process_current now cv ok s = s
    ∨ (is_ready_to_execute now s = true
        ∧ process_current now cv ok s = record_success now s) := by
  by_cases hr : is_ready_to_execute now s = false
  · left
    simp [process_current, executeStep, hr]
  · rw [Bool.not_eq_false] at hr
    cases cv with
    | none =>
      left
      simp [process_current, executeStep, hr]
    | some v =>
      cases ok with
      | false =>
        left
        simp [process_current, executeStep, hr]
      | true =>
        right
        exact ⟨hr, by simp [process_current, executeStep, hr, record_success]⟩

/-- The invariant "`has_activated` implies `is_active`" is preserved by every
driving-loop event. -/
theorem aux_runDrive_inv (es : List DriveEvent) :
    ∀ s : GestureState, (s.has_activated = true → s.is_active = true) →
      ((runDrive es s).has_activated = true → (runDrive es s).is_active = true) := by
  induction es with
  | nil => exact fun s h => h
  | cons e es ih =>
    intro s h
    rw [aux_runDrive_cons]
    apply ih
    cases e with
    | begin t =>
      intro _
      exact aux_start_active t s
    | stop =>
      intro hb
      simp [applyDrive, end_gesture] at hb
    | frame t cv ok =>
      show (process_current t cv ok s).has_activated = true →
        (process_current t cv ok s).is_active = true
      rcases aux_process_current_cases t cv ok s with hsame | ⟨hready, hrec⟩
      · rw [hsame]; exact h
      · rw [hrec]
        intro _
        show (mark_executed t s).is_active = true
        exact aux_is_ready_active t s hready

/-- Claim C8: in every state reachable from the initial state by the driving
protocol (begin, end, and per-frame execution of the current gesture),
`has_activated` is true only while `is_active` is true, and every
`end_gesture` resets `has_activated` to false. -/
theorem c8_has_activated_invariant (es : List DriveEvent) (cd d : ℚ)
    (s : GestureState) :
    ((runDrive es (initGesture cd d)).has_activated = true →
      (runDrive es (initGesture cd d)).is_active = true)
    ∧ (end_gesture s).has_activated = false :=
  ⟨aux_runDrive_inv es (initGesture cd d) (fun h => by simp [initGesture] at h), rfl⟩

/-- Witness for C8 at concrete inputs. -/
theorem c8_has_activated_invariant_witness :
    (runDrive [DriveEvent.begin 0, DriveEvent.frame 2 (some 50) true]
      (initGesture 6 2)).is_active = true :=
  (c8_has_activated_invariant
    [DriveEvent.begin 0, DriveEvent.frame 2 (some 50) true] 6 2 (initGesture 6 2)).1
    (by with_unfolding_all decide)

/-- On a list shorter than 21 landmarks, `get_finger_states` returns the
all-closed pattern. -/
theorem aux_gfs_short (l : List Landmark) (h : l.length < 21) :
    get_finger_states l = some [0, 0, 0, 0, 0] := by
  unfold get_finger_states
  rw [if_pos (Or.inr h)]

/-- On a list of at least 21 landmarks, `get_finger_states` succeeds. -/
theorem aux_gfs_long (l : List Landmark) (h : 21 ≤ l.length) :
    ∃ v, get_finger_states l = some v := by
  have h2 : l[2]? = some l[2] := List.getElem?_eq_getElem (by omega)
  have h3 : l[3]? = some l[3] := List.getElem?_eq_getElem (by omega)
  have h4 : l[4]? = some l[4] := List.getElem?_eq_getElem (by omega)
  have h5 : l[5]? = some l[5] := List.getElem?_eq_getElem (by omega)
  have h6 : l[6]? = some l[6] := List.getElem?_eq_getElem (by omega)
  have h8 : l[8]? = some l[8] := List.getElem?_eq_getElem (by omega)
  have h9 : l[9]? = some l[9] := List.getElem?_eq_getElem (by omega)
  have h10 : l[10]? = some l[10] := List.getElem?_eq_getElem (by omega)
  have h12 : l[12]? = some l[12] := List.getElem?_eq_getElem (by omega)
  have h13 : l[13]? = some l[13] := List.getElem?_eq_getElem (by omega)
  have h14 : l[14]? = some l[14] := List.getElem?_eq_getElem (by omega)
  have h16 : l[16]? = some l[16] := List.getElem?_eq_getElem (by omega)
  have h17 : l[17]? = some l[17] := List.getElem?_eq_getElem (by omega)
  have h18 : l[18]? = some l[18] := List.getElem?_eq_getElem (by omega)
  have h20 : l[20]? = some l[20] := List.getElem?_eq_getElem (by omega)
  have hne : ¬(l = [] ∨ l.length < 21) := by
    rintro (rfl | hlt)
    · simp at h
    · omega
  unfold get_finger_states
  rw [if_neg hne]
  simp [h2, h3, h4, h5, h6, h8, h9, h10, h12, h13, h14, h16, h17, h18, h20]

/-- Counterexample to claim C9 as stated: on the non-empty single-landmark
list, `get_finger_states` returns `[0,0,0,0,0]`, `VolumeDownGesture.detect`
follows the all-closed branch and reads `landmarks[4]`, which is out of
bounds (a Python `IndexError`, modelled as `none`). -/
theorem c9_detect_counterexample :
    volumeDownDetect [{ x := 0, y := 0 }] = none := by
  with_unfolding_all decide

/-- Claim C9 (amended): `VolumeDownGesture.detect` returns a boolean without
out-of-bounds access on the empty list and on every list with at least 5
entries; on a non-empty list with fewer than 5 entries, `get_finger_states`
returns `[0,0,0,0,0]` and `detect` then reads `landmarks[4]`, an
out-of-bounds access. -/
theorem c9_detect_amended (l : List Landmark) :
    (l = [] ∨ 5 ≤ l.length → ∃ b, volumeDownDetect l = some b)
    ∧ (l ≠ [] → l.length < 5 → volumeDownDetect l = none) := by
  constructor
  · rintro (rfl | hlen)
    · exact ⟨false, rfl⟩
    · have hne : ¬(l = []) := by
        rintro rfl
        simp at hlen
      have h4 : l[4]? = some l[4] := List.getElem?_eq_getElem (by omega)
      have h3 : l[3]? = some l[3] := List.getElem?_eq_getElem (by omega)
      by_cases h21 : l.length < 21
      · have hfs := aux_gfs_short l h21
        unfold volumeDownDetect
        rw [if_neg hne]
        simp [hfs, h4, h3]
        exact le_or_lt _ _
      · obtain ⟨v, hv⟩ := aux_gfs_long l (by omega)
        unfold volumeDownDetect
        rw [if_neg hne]
        by_cases hv0 : v = [0, 0, 0, 0, 0]
        · subst hv0
          simp [hv, h4, h3]
          exact le_or_lt _ _
        · simp [hv, hv0]
  · intro hne hlen
    have hfs := aux_gfs_short l (by omega)
    have h4 : l[4]? = none := List.getElem?_eq_none (by omega)
    unfold volumeDownDetect
    rw [if_neg hne]
    simp [hfs, h4]

/-- Witness for C9 (amended) at concrete inputs. -/
theorem c9_detect_amended_witness :
    (∃ b, volumeDownDetect ([] : List Landmark) = some b)
    ∧ (∃ b, volumeDownDetect
        [⟨0, 0⟩, ⟨0, 0⟩, ⟨0, 0⟩, ⟨0, 0⟩, ⟨0, 0⟩] = some b)
    ∧ volumeDownDetect [⟨0, 0⟩] = none := by
  refine ⟨?_, ?_, ?_⟩
  · exact (c9_detect_amended []).1 (Or.inl rfl)
  · exact (c9_detect_amended _).1 (Or.inr (by simp))
  · exact (c9_detect_amended [⟨0, 0⟩]).2 (by simp) (by simp)

/-- Claim C10: `VolumeUpGesture.detect` and `VolumeDownGesture.detect` never
both return true on the same landmarks (thumbs up needs finger states
`[1,0,0,0,0]`, thumbs down needs `[0,0,0,0,0]`), independent of the caller's
evaluation order. -/
theorem c10_volume_detect_exclusive (l : List Landmark) :
    (((volumeUpDetect l).getD false) && ((volumeDownDetect l).getD false)) = false := by
  by_cases hne : l = []
  · subst hne
    rfl
  · by_cases h21 : l.length < 21
    · have hfs := aux_gfs_short l h21
      have hup : volumeUpDetect l = some false := by
        unfold volumeUpDetect
        rw [if_neg hne]
        simp [hfs]
      simp [hup]
    · obtain ⟨v, hv⟩ := aux_gfs_long l (by omega)
      by_cases hv1 : v = [1, 0, 0, 0, 0]
      · have hdown : volumeDownDetect l = some false := by
          unfold volumeDownDetect
          rw [if_neg hne]
          subst hv1
          simp [hv]
        simp [hdown]
      · have hup : volumeUpDetect l = some false := by
          unfold volumeUpDetect
          rw [if_neg hne]
          simp [hv, hv1]
        simp [hup]
